import Mathlib

/-!
Shallow embedding of the receipt processor (src/main.go): the Receipt data
model, the seven scoring rules of calculatePoints, and the identifier-keyed
score store used by the processReceipt and getPoints handlers, together with
proofs of the behavioural properties claimed for them.

Numeric fields are parsed with exact rational arithmetic: the Go code calls
strconv.ParseFloat and computes in binary64, which this development idealises
as exact decimal-to-rational parsing.  All concrete values appearing in the
theorems below are small decimals on which binary64 and exact rational
arithmetic agree.
-/

set_option autoImplicit false

unseal Rat.mul Rat.add Rat.sub Rat.inv Rat.ofScientific

namespace ReceiptProcessor

/-- Item of a receipt (src/main.go lines 27-30): a short description and a
price, both plain text. -/
structure Item where
  ShortDescr : String
  Price : String
deriving DecidableEq, Repr

/-- Receipt (src/main.go lines 19-25): retailer name, purchase date and time
as text, the item list, and the total as text. -/
structure Receipt where
  Retailer : String
  PurchaseDate : String
  PurchaseTime : String
  Items : List Item
  Total : String
deriving DecidableEq, Repr

/-- Numeric value of a list of decimal digit characters, most significant
digit first. -/
def digitsToNat (ds : List Char) : ℕ :=
  ds.foldl (fun a c => 10 * a + (c.toNat - 48)) 0

/-- Optionally signed run of decimal digits that must fill the whole list. -/
def parseSignedNat (cs : List Char) : Option ℤ :=
  let p : ℤ × List Char :=
    match cs with
    | '+' :: t => (1, t)
    | '-' :: t => (-1, t)
    | t => (1, t)
  let q := p.2.span Char.isDigit
  if q.1 = [] ∨ q.2 ≠ [] then none
  else some (p.1 * (digitsToNat q.1 : ℤ))

/-- Exponent suffix of a decimal number: empty, or e/E followed by an
optionally signed digit run consuming the rest of the input. -/
def parseExpSuffix (cs : List Char) : Option ℤ :=
  match cs with
  | [] => some 0
  | 'e' :: r => parseSignedNat r
  | 'E' :: r => parseSignedNat r
  | _ => none

/-- Model of Go strconv.ParseFloat as used on src/main.go lines 107 and 125:
an optional sign, decimal digits with an optional fraction part, and an
optional decimal exponent, consuming the whole string; at least one mantissa
digit is required.  The value is the exact rational rather than the nearest
binary64; hex floats, digit-group underscores, the inf and nan spellings
(which Go parses to non-finite floats rather than failing) and the
range-error cases (where Go returns an infinity alongside the discarded
error) are outside the modelled subset, so theorems quantifying over prices
restrict themselves to inputs this parser accepts.  Go returns the value 0
together with the error on a syntax failure, and both call sites discard the
error, which callers here mirror with getD 0. -/
def parseDecimal (s : String) : Option ℚ :=
  let sgn : ℚ × List Char :=
    match s.data with
    | '+' :: r => (1, r)
    | '-' :: r => (-1, r)
    | r => (1, r)
  let ipr := sgn.2.span Char.isDigit
  let fpr : List Char × List Char :=
    match ipr.2 with
    | '.' :: r => r.span Char.isDigit
    | r => ([], r)
  match parseExpSuffix fpr.2 with
  | none => none
  | some e =>
    if ipr.1 = [] ∧ fpr.1 = [] then none
    else
      let mant : ℚ := (digitsToNat ipr.1 : ℚ) + (digitsToNat fpr.1 : ℚ) / (10 : ℚ) ^ fpr.1.length
      let scaled : ℚ := if 0 ≤ e then mant * (10 : ℚ) ^ e.toNat else mant / (10 : ℚ) ^ (-e).toNat
      some (sgn.1 * scaled)

/-- Rule 1 (src/main.go lines 102-104): one point for every match of the
regexp [a-zA-Z0-9] in the retailer name.  The regexp matches single ASCII
alphanumeric characters, so the match count is the number of such
characters. -/
def retailerPoints (retailer : String) : ℤ :=
  ((retailer.data.filter Char.isAlphanum).length : ℕ)

/-- Parsed total of a receipt (src/main.go line 107), zero when the total
fails to parse. -/
def parsedTotal (r : Receipt) : ℚ :=
  (parseDecimal r.Total).getD 0

/-- Rule 2 (src/main.go lines 106-110): 50 points when the parsed total
equals math.Floor of itself, that is, has zero fractional component. -/
def roundDollarPoints (q : ℚ) : ℤ :=
  if (⌊q⌋ : ℚ) = q then 50 else 0

/-- Rule 3 (src/main.go lines 112-115): 25 points when math.Mod of the total
scaled by 100 and 25 is zero.  For exact arithmetic math.Mod(x, 25) = 0 holds
exactly when x is an integer multiple of 25, modelled as the quotient x / 25
having denominator 1. -/
def quarterPoints (q : ℚ) : ℤ :=
  if (q * 100 / 25).den = 1 then 25 else 0

/-- Combined contribution of the two total rules to the score of a receipt
with the given total field. -/
def totalRulePoints (total : String) : ℤ :=
  roundDollarPoints ((parseDecimal total).getD 0) + quarterPoints ((parseDecimal total).getD 0)

/-- Rule 4 (src/main.go line 118): 5 points for every two items, with integer
division discarding a trailing unpaired item. -/
def pairPoints (items : List Item) : ℤ :=
  ((items.length / 2) * 5 : ℕ)

/-- Model of strings.TrimSpace (src/main.go line 123): drop leading and
trailing whitespace characters.  Lean Char.isWhitespace covers the ASCII
whitespace subset of the Unicode set Go trims, which coincides on the inputs
considered here. -/
def trimSpace (cs : List Char) : List Char :=
  ((cs.dropWhile Char.isWhitespace).reverse.dropWhile Char.isWhitespace).reverse

/-- Length of the trimmed short description (src/main.go line 123).  Go len
counts bytes; for the ASCII strings at issue that equals the character count
used here. -/
def trimmedLen (s : String) : ℕ :=
  (trimSpace s.data).length

/-- Rule 5 body (src/main.go lines 123-127): when the trimmed description
length is a multiple of 3 the item contributes the ceiling of price times
0.2, with an unparseable price read as 0.  The code tests trimmedLen mod 3 = 0
and does not exclude length 0.  The Go expression int(math.Ceil(price * 0.2))
converts a float64 to int, which for results outside the int64 range (price
around 5 * 2^62 and beyond, or a non-finite price) is out of range and yields
minInt64 on amd64; the unbounded integer ceiling used here agrees with the
program only below that range, and theorems about non-negative prices carry
an explicit bound keeping them in the agreeing regime. -/
def itemDescPoints (it : Item) : ℤ :=
  if trimmedLen it.ShortDescr % 3 = 0 then
    ⌈((parseDecimal it.Price).getD 0 : ℚ) * (0.2 : ℚ)⌉
  else 0

/-- Rule 5 loop (src/main.go lines 121-128): fold of the per-item description
bonus over the item list. -/
def descPoints (items : List Item) : ℤ :=
  items.foldl (fun acc it => acc + itemDescPoints it) 0

/-- Leap year test of the proleptic Gregorian calendar, as in the Go time
package. -/
def isLeapYear (y : ℕ) : Bool :=
  y % 4 == 0 && (!(y % 100 == 0) || y % 400 == 0)

/-- Number of days of a month, as validated by Go time.Parse. -/
def daysInMonth (y m : ℕ) : ℕ :=
  if m = 2 then (if isLeapYear y then 29 else 28)
  else if m = 4 ∨ m = 6 ∨ m = 9 ∨ m = 11 then 30
  else 31

/-- Model of Go time.Parse with layout 2006-01-02 (src/main.go line 131):
exactly four year digits, a dash, two month digits in 1..12, a dash, and two
day digits valid for that month, consuming the whole string.  Returns
(year, month, day). -/
def parseDate (s : String) : Option (ℕ × ℕ × ℕ) :=
  match s.data with
  | [y1, y2, y3, y4, '-', m1, m2, '-', d1, d2] =>
    if ([y1, y2, y3, y4, m1, m2, d1, d2].all Char.isDigit) then
      let y := digitsToNat [y1, y2, y3, y4]
      let m := digitsToNat [m1, m2]
      let d := digitsToNat [d1, d2]
      if 1 ≤ m ∧ m ≤ 12 ∧ 1 ≤ d ∧ d ≤ daysInMonth y m then some (y, m, d) else none
    else none
  | _ => none

/-- Day of month used by rule 6 (src/main.go lines 131-132): the day of the
parsed purchase date, or 1 when parsing fails, since Go time.Parse then
returns the zero time.Time whose Day() is 1. -/
def dayOfPurchase (s : String) : ℕ :=
  match parseDate s with
  | some (_, _, d) => d
  | none => 1

/-- Rule 6 (src/main.go lines 130-134): 6 points when the day of the purchase
date is odd. -/
def oddDayPoints (s : String) : ℤ :=
  if dayOfPurchase s % 2 = 1 then 6 else 0

/-- Model of Go time.Parse with layout 15:04 (src/main.go lines 137-139): one
or two hour digits with hour below 24, a colon, and exactly two minute digits
with minute below 60, consuming the whole string.  Returns minutes after
midnight. -/
def parseTimeHM (s : String) : Option ℕ :=
  match s.data with
  | [h1, h2, ':', m1, m2] =>
    if ([h1, h2, m1, m2].all Char.isDigit) then
      let h := digitsToNat [h1, h2]
      let m := digitsToNat [m1, m2]
      if h ≤ 23 ∧ m ≤ 59 then some (60 * h + m) else none
    else none
  | [h1, ':', m1, m2] =>
    if ([h1, m1, m2].all Char.isDigit) then
      let h := digitsToNat [h1]
      let m := digitsToNat [m1, m2]
      if h ≤ 23 ∧ m ≤ 59 then some (60 * h + m) else none
    else none
  | _ => none

/-- Minutes after midnight of the purchase time (src/main.go line 137), zero
when parsing fails, since the zero time.Time is midnight. -/
def purchaseMinutes (s : String) : ℕ :=
  (parseTimeHM s).getD 0

/-- Rule 7 (src/main.go lines 136-143): 10 points when the purchase time is
strictly after the parse of 14:00 and strictly before the parse of 16:00; the
comparisons of time.Time values with equal dates reduce to comparisons of
minutes after midnight. -/
def timePoints (s : String) : ℤ :=
  if (parseTimeHM "14:00").getD 0 < purchaseMinutes s
      ∧ purchaseMinutes s < (parseTimeHM "16:00").getD 0
    then 10 else 0

/-- calculatePoints (src/main.go lines 99-146): the sum of the seven additive
rule contributions. -/
def calculatePoints (r : Receipt) : ℤ :=
  retailerPoints r.Retailer
    + roundDollarPoints (parsedTotal r)
    + quarterPoints (parsedTotal r)
    + pairPoints r.Items
    + descPoints r.Items
    + oddDayPoints r.PurchaseDate
    + timePoints r.PurchaseTime

/-- The in-memory store (src/main.go lines 40-47): the map from identifier to
points, modelled as an association list with the most recent insert first; a
Go map assignment corresponds to a front insert and a lookup takes the first
match.  The initial store is the empty list, matching the empty map made at
program start. -/
abbrev Store := List (String × ℤ)

/-- Store effect of processReceipt (src/main.go lines 60-77): score the
receipt and record the score under the identifier generated by uuid.New;
returns the new store and the identifier sent back to the caller. -/
def processReceipt (st : Store) (id : String) (r : Receipt) : Store × String :=
  ((id, calculatePoints r) :: st, id)

/-- Store read of getPoints (src/main.go lines 80-96): look the identifier
up; none models the 404 Receipt-not-found response.  The read leaves the
store unchanged. -/
def getPoints (st : Store) (id : String) : Option ℤ :=
  st.lookup id

/-- One inbound request against the shared store: a POST to
/receipts/process carrying a receipt together with the identifier generated
for it, or a GET of /receipts/{id}/points. -/
inductive ReqOp where
  | process (id : String) (r : Receipt)
  | getp (id : String)

/-- Store effect of one request: process inserts, getp only reads. -/
def applyOp (st : Store) : ReqOp → Store
  | ReqOp.process id r => (processReceipt st id r).1
  | ReqOp.getp _ => st

/-- Store after a sequence of requests, executed in order. -/
def runOps (st : Store) (ops : List ReqOp) : Store :=
  ops.foldl applyOp st

/-- The identifier a request inserts, when it inserts one. -/
def putsId : ReqOp → Option String
  | ReqOp.process id _ => some id
  | ReqOp.getp _ => none

/-- Receipt of the worked example of section 8 of the spec: six alphanumeric
retailer characters, a non-round total, two items of which one description
trims to length 18 with price 12.25, an odd purchase day and a purchase time
outside the afternoon window, for a score of 20. -/
def rTarget : Receipt :=
  { Retailer := "Target"
    PurchaseDate := "2022-01-01"
    PurchaseTime := "13:01"
    Items := [
      { ShortDescr := "Emils Cheese Pizza", Price := "12.25" },
      { ShortDescr := "Mountain Dew 12PK", Price := "6.49" }]
    Total := "35.35" }

/-- Literal copy of rTarget, written as a second definition with the same
field values. -/
def rTargetCopy : Receipt :=
  { Retailer := "Target"
    PurchaseDate := "2022-01-01"
    PurchaseTime := "13:01"
    Items := [
      { ShortDescr := "Emils Cheese Pizza", Price := "12.25" },
      { ShortDescr := "Mountain Dew 12PK", Price := "6.49" }]
    Total := "35.35" }

/-- Receipt whose total field does not parse as a number. -/
def rBadTotal : Receipt :=
  { Retailer := "Target"
    PurchaseDate := "2022-01-01"
    PurchaseTime := "13:01"
    Items := []
    Total := "1oo.oo" }

/-- Receipt whose purchase date does not parse in the 2006-01-02 layout. -/
def rBadDate : Receipt :=
  { Retailer := "Target"
    PurchaseDate := "not-a-date"
    PurchaseTime := "13:01"
    Items := []
    Total := "9.00" }

/-- Item whose description trims to length 0 while the price parses to 5. -/
def itEmptyDescr : Item := { ShortDescr := " ", Price := "5.00" }

/-- Fold-to-sum description of the rule 5 loop. -/
theorem descPoints_eq_sum (items : List Item) :
    descPoints items = (items.map itemDescPoints).sum := by
  unfold descPoints
  have gen : ∀ (l : List Item) (a : ℤ),
      l.foldl (fun acc it => acc + itemDescPoints it) a
        = a + (l.map itemDescPoints).sum := by
    intro l
    induction l with
    | nil => intro a; simp
    | cons x xs ih => intro a; simp [ih, add_assoc]
  rw [gen, zero_add]

/-- Claim C2 fails on the code: the code tests trimmedLen mod 3 = 0 without
excluding length 0, so an item whose description trims to length 0 still
receives the ceil(price * 0.2) bonus. -/
theorem zero_length_description_bonus_example :
    trimmedLen itEmptyDescr.ShortDescr = 0
    ∧ itemDescPoints itEmptyDescr = 1
    ∧ descPoints [itEmptyDescr] = 1 := by decide

/-- Claim C2 (amended): the description-length bonus ceil(price * 0.2) is
added for exactly the items whose trimmed description length is a multiple of
3, including length 0; items with other trimmed lengths contribute 0. -/
theorem descPoints_multiple_of_three_including_zero (items : List Item) :
    descPoints items =
      (items.map fun it =>
        if trimmedLen it.ShortDescr % 3 = 0
        then ⌈((parseDecimal it.Price).getD 0 : ℚ) * (0.2 : ℚ)⌉
        else 0).sum := by
  rw [descPoints_eq_sum]
  rfl

/-- Claim C3: when the total fails to parse, scoring continues with the total
read as zero, and zero collects both the round-dollar and the
quarter-multiple bonus. -/
theorem unparseable_total_gets_both_total_bonuses (r : Receipt)
    (h : parseDecimal r.Total = none) :
    parsedTotal r = 0
    ∧ roundDollarPoints (parsedTotal r) = 50
    ∧ quarterPoints (parsedTotal r) = 25
    ∧ totalRulePoints r.Total = 75 := by
  have h0 : parsedTotal r = 0 := by simp [parsedTotal, h]
  have hr : roundDollarPoints (parsedTotal r) = 50 := by rw [h0]; decide
  have hq : quarterPoints (parsedTotal r) = 25 := by rw [h0]; decide
  refine ⟨h0, hr, hq, ?_⟩
  unfold totalRulePoints
  simp only [h, Option.getD_none]
  decide

/-- Witness for unparseable_total_gets_both_total_bonuses at the receipt
whose total is the unparseable string 1oo.oo. -/
theorem unparseable_total_gets_both_total_bonuses_witness :
    parseDecimal rBadTotal.Total = none ∧ totalRulePoints rBadTotal.Total = 75 :=
  ⟨rfl, (unparseable_total_gets_both_total_bonuses rBadTotal rfl).2.2.2⟩

/-- Claim C5 fails on the code at total 100.50: its floor 100 differs from
100.50, so the round-dollar bonus is not awarded, and the two total rules
contribute 25, not 75. -/
theorem total_100_50_only_quarter :
    totalRulePoints "100.50" = 25 ∧ totalRulePoints "100.50" ≠ 75 := by decide

/-- Claim C5 (amended): the two total rules are evaluated independently:
100.00 earns both (+75), 100.10 neither (+0), 100.25 only the quarter
multiple (+25), and 100.50 also only the quarter multiple (+25), because
100.50 is not a round dollar amount. -/
theorem total_rules_examples :
    totalRulePoints "100.00" = 75
    ∧ totalRulePoints "100.10" = 0
    ∧ totalRulePoints "100.25" = 25
    ∧ totalRulePoints "100.50" = 25 := by decide

/-- Claim C6: the 10 point bonus is awarded exactly when the purchase time
parses to a time strictly between 840 and 960 minutes (14:00 and 16:00,
both exclusive); the endpoints earn nothing, strictly interior parsed times
earn the bonus, and every other receipt time earns 0. -/
theorem timePoints_strict_window :
    (∀ s : String,
      timePoints s = 10 ↔ ∃ t, parseTimeHM s = some t ∧ 840 < t ∧ t < 960)
    ∧ (∀ s : String, timePoints s = 10 ∨ timePoints s = 0)
    ∧ timePoints "14:00" = 0 ∧ timePoints "16:00" = 0
    ∧ timePoints "14:01" = 10 ∧ timePoints "15:59" = 10 := by
  have key : ∀ s : String,
      timePoints s
        = if 840 < purchaseMinutes s ∧ purchaseMinutes s < 960 then 10 else 0 :=
    fun s => rfl
  refine ⟨?_, ?_, by decide, by decide, by decide, by decide⟩
  · intro s
    rw [key]
    cases hp : parseTimeHM s with
    | none =>
      have h0 : purchaseMinutes s = 0 := by simp [purchaseMinutes, hp]
      rw [h0]
      simp
    | some t =>
      have ht : purchaseMinutes s = t := by simp [purchaseMinutes, hp]
      rw [ht]
      constructor
      · intro h10
        by_cases hc : 840 < t ∧ t < 960
        · exact ⟨t, rfl, hc.1, hc.2⟩
        · rw [if_neg hc] at h10; cases h10
      · rintro ⟨u, hu, hl, hr⟩
        injection hu with hu
        subst hu
        rw [if_pos ⟨hl, hr⟩]
  · intro s
    rw [key]
    split
    · exact Or.inl rfl
    · exact Or.inr rfl

/-- Claim C10: when the purchase date fails to parse, the zero time value has
day of month 1, which is odd, so the 6 point odd-day bonus is awarded. -/
theorem unparseable_date_odd_day_bonus (r : Receipt)
    (h : parseDate r.PurchaseDate = none) :
    dayOfPurchase r.PurchaseDate = 1 ∧ oddDayPoints r.PurchaseDate = 6 := by
  have hd : dayOfPurchase r.PurchaseDate = 1 := by
    unfold dayOfPurchase
    rw [h]
  refine ⟨hd, ?_⟩
  unfold oddDayPoints
  rw [hd]
  decide

/-- Witness for unparseable_date_odd_day_bonus at the receipt whose purchase
date is the unparseable string not-a-date. -/
theorem unparseable_date_odd_day_bonus_witness :
    parseDate rBadDate.PurchaseDate = none ∧ oddDayPoints rBadDate.PurchaseDate = 6 :=
  ⟨rfl, (unparseable_date_odd_day_bonus rBadDate rfl).2⟩

/-- Lookup after an insert of a different identifier is unchanged. -/
theorem getPoints_insert_ne (st : Store) (id id2 : String) (pts : ℤ)
    (hne : id2 ≠ id) :
    getPoints ((id2, pts) :: st) id = getPoints st id := by
  unfold getPoints
  have hb : (id == id2) = false := beq_eq_false_iff_ne.mpr (fun he => hne he.symm)
  simp [List.lookup, hb]

/-- Lookup of the identifier just inserted. -/
theorem getPoints_insert_self (st : Store) (id : String) (pts : ℤ) :
    getPoints ((id, pts) :: st) id = some pts := by
  unfold getPoints
  simp [List.lookup]

/-- A sequence of requests none of which inserts the given identifier leaves
its lookup unchanged. -/
theorem getPoints_runOps_of_fresh (ops : List ReqOp) :
    ∀ (st : Store) (id : String),
      (∀ op ∈ ops, putsId op ≠ some id) →
      getPoints (runOps st ops) id = getPoints st id := by
  induction ops with
  | nil => intro st id _; rfl
  | cons op rest ih =>
    intro st id h
    have hop : putsId op ≠ some id := h op (List.mem_cons_self op rest)
    have hrest : ∀ o ∈ rest, putsId o ≠ some id :=
      fun o ho => h o (List.mem_cons_of_mem op ho)
    have hrun : runOps st (op :: rest) = runOps (applyOp st op) rest := rfl
    rw [hrun, ih (applyOp st op) id hrest]
    cases op with
    | process id2 r =>
      have hne : id2 ≠ id := by
        intro he
        exact hop (by simp [putsId, he])
      exact getPoints_insert_ne st id id2 (calculatePoints r) hne
    | getp i => rfl

/-- Claim C4: after processReceipt records a receipt under a freshly
generated identifier, a getPoints lookup of that identifier returns exactly
the recorded score, immediately and after any interleaved later requests
whose generated identifiers are fresh; the record is never updated or
deleted. -/
theorem score_persists_after_process (st : Store) (id : String) (r : Receipt)
    (ops : List ReqOp) (hfresh : ∀ op ∈ ops, putsId op ≠ some id) :
    getPoints (runOps (applyOp st (ReqOp.process id r)) ops) id
      = some (calculatePoints r) := by
  rw [getPoints_runOps_of_fresh ops (applyOp st (ReqOp.process id r)) id hfresh]
  exact getPoints_insert_self st id (calculatePoints r)

/-- Witness for score_persists_after_process: a process of the example
receipt under id-a followed by an interleaved get and a process under the
distinct id-b still reads back the score of id-a. -/
theorem score_persists_after_process_witness :
    getPoints (runOps (applyOp [] (ReqOp.process "id-a" rTarget))
        [ReqOp.getp "id-a", ReqOp.process "id-b" rBadDate]) "id-a"
      = some (calculatePoints rTarget) :=
  score_persists_after_process [] "id-a" rTarget
    [ReqOp.getp "id-a", ReqOp.process "id-b" rBadDate] (by decide)

/-- Claim C7: a getPoints lookup of an identifier never inserted by any
request returns none, the not-found signal, and a get request never changes
the store, whether the identifier is present or absent. -/
theorem get_absent_not_found (ops : List ReqOp) (id : String)
    (hnever : ∀ op ∈ ops, putsId op ≠ some id) :
    getPoints (runOps [] ops) id = none
    ∧ ∀ (st : Store) (i : String), applyOp st (ReqOp.getp i) = st := by
  refine ⟨?_, fun st i => rfl⟩
  rw [getPoints_runOps_of_fresh ops [] id hnever]
  rfl

/-- Witness for get_absent_not_found: after a process under id-b and a get of
id-a, the never-inserted id-a is still absent. -/
theorem get_absent_not_found_witness :
    getPoints (runOps [] [ReqOp.process "id-b" rTarget, ReqOp.getp "id-a"]) "id-a"
      = none :=
  (get_absent_not_found [ReqOp.process "id-b" rTarget, ReqOp.getp "id-a"] "id-a"
    (by decide)).1

/-- Claim C8: calculatePoints is deterministic: any two receipts with
identical field values score identically. -/
theorem calculatePoints_deterministic (r1 r2 : Receipt)
    (h1 : r1.Retailer = r2.Retailer) (h2 : r1.PurchaseDate = r2.PurchaseDate)
    (h3 : r1.PurchaseTime = r2.PurchaseTime) (h4 : r1.Items = r2.Items)
    (h5 : r1.Total = r2.Total) :
    calculatePoints r1 = calculatePoints r2 := by
  have : r1 = r2 := by
    cases r1
    cases r2
    simp_all
  rw [this]

/-- Witness for calculatePoints_deterministic at two literal copies of the
example receipt with identical field values. -/
theorem calculatePoints_deterministic_witness :
    calculatePoints rTarget = calculatePoints rTargetCopy :=
  calculatePoints_deterministic rTarget rTargetCopy rfl rfl rfl rfl rfl

end ReceiptProcessor
